import Mathlib

/-!
Verification of the SerialKeyboardMouseController core against its
specification.

The development shallowly embeds:
  - the `AbsMouse_` HID output adapter (`src/AbsMouse.cpp`, `AbsMouse.h`):
    its member state, constructor defaults, and the `init`, `report`,
    `move`, `scroll`, `press`, `release` member functions;
  - the serial protocol constants of `src/serial_symbols.h`;
  - the byte-at-a-time frame decoder state machine. The decoder's own
    source file is not among the provided sources (only the protocol
    constants it uses are), so it is modelled from the specification's
    description of the state machine.

Machine integers are embedded as `Nat` (unsigned) and `Int` (signed) with
explicit `% 2 ^ w` reductions exactly where the C code truncates.
-/

namespace SerialSymbols

/-- `constexpr unsigned long BAUD_RATE = 500000u` (serial_symbols.h). -/
def BAUD_RATE : Nat := 500000

/-- `constexpr uint8_t FRAME_START = 0xABu` (serial_symbols.h line 27). -/
def FRAME_START : Nat := 0xAB

/-- `constexpr uint8_t MAX_DATA_LENGTH = 6` (serial_symbols.h line 28):
data (max 5 bytes) plus checksum (1 byte). -/
def MAX_DATA_LENGTH : Nat := 6

/-- `constexpr uint8_t MAX_FRAME_LENGTH = MAX_DATA_LENGTH + 2`
(serial_symbols.h line 29): the 0xAB marker and the length byte are the
2 extra bytes. -/
def MAX_FRAME_LENGTH : Nat := MAX_DATA_LENGTH + 2

/-- `FRAME_TYPE_REL_MOUSE_MOVE = 0xA0u` from `enum FrameType`. -/
def FRAME_TYPE_REL_MOUSE_MOVE : Nat := 0xA0

/-- `FRAME_TYPE_MOUSE_MOVE = 0xAAu` from `enum FrameType`. -/
def FRAME_TYPE_MOUSE_MOVE : Nat := 0xAA

/-- `FRAME_TYPE_MOUSE_SCROLL = 0xABu` from `enum FrameType`. -/
def FRAME_TYPE_MOUSE_SCROLL : Nat := 0xAB

/-- `FRAME_TYPE_MOUSE_PRESS = 0xACu` from `enum FrameType`. -/
def FRAME_TYPE_MOUSE_PRESS : Nat := 0xAC

/-- `FRAME_TYPE_MOUSE_RELEASE = 0xADu` from `enum FrameType`. -/
def FRAME_TYPE_MOUSE_RELEASE : Nat := 0xAD

/-- `FRAME_TYPE_MOUSE_RESOLUTION = 0xAEu` from `enum FrameType`. -/
def FRAME_TYPE_MOUSE_RESOLUTION : Nat := 0xAE

/-- `FRAME_TYPE_KEY_PRESS = 0xBBu` from `enum FrameType`. -/
def FRAME_TYPE_KEY_PRESS : Nat := 0xBB

/-- `FRAME_TYPE_KEY_RELEASE = 0xBC` from `enum FrameType`. -/
def FRAME_TYPE_KEY_RELEASE : Nat := 0xBC

/-- `FRAME_TYPE_UNKNOWN = 0xFF` from `enum FrameType`. -/
def FRAME_TYPE_UNKNOWN : Nat := 0xFF

/-- `constexpr uint8_t RELEASE_ALL_KEYS = 0x00u` (serial_symbols.h). -/
def RELEASE_ALL_KEYS : Nat := 0

end SerialSymbols

namespace AbsMouse

/-- The member state of class `AbsMouse_` (AbsMouse.h):
`uint8_t _buttons; int8_t _scroll; uint16_t _x; uint16_t _y;
uint32_t _width; uint32_t _height; bool _autoReport;`.
Unsigned members are `Nat`, the signed `_scroll` is `Int`. -/
structure State where
  buttons : Nat
  scroll : Int
  x : Nat
  y : Nat
  width : Nat
  height : Nat
  autoReport : Bool
deriving Repr, DecidableEq

/-- The default constructor `AbsMouse_::AbsMouse_` (AbsMouse.cpp line 72):
initializer list `_buttons(0), _scroll(0), _x(0), _y(0), _width(1920),
_height(1080), _autoReport(false)`. -/
def initialState : State :=
  { buttons := 0, scroll := 0, x := 0, y := 0
    width := 1920, height := 1080, autoReport := false }

/-- Default value of the `width` parameter declared for `AbsMouse_::init`
in AbsMouse.h line 52. -/
def INIT_DEFAULT_WIDTH : Nat := 32767

/-- Default value of the `height` parameter declared for `AbsMouse_::init`
in AbsMouse.h line 52. -/
def INIT_DEFAULT_HEIGHT : Nat := 32767

/-- Default value of the `autoReport` parameter declared for
`AbsMouse_::init` in AbsMouse.h line 52. -/
def INIT_DEFAULT_AUTOREPORT : Bool := true

/-- `AbsMouse_::init` (AbsMouse.cpp lines 78-83): stores the three
arguments into `_width`, `_height`, `_autoReport`, with no guard. -/
def init (width height : Nat) (autoReport : Bool) (s : State) : State :=
  { s with width := width, height := height, autoReport := autoReport }

/-- The value of an `int8_t` expression assigned to a `uint8_t` buffer
slot: the two's-complement byte, i.e. the value modulo 256. -/
def int8ToByte (v : Int) : Nat := (v % 256).toNat

/-- The 6-byte buffer built by `AbsMouse_::report` (AbsMouse.cpp lines
85-96): `buffer[0] = _buttons; buffer[1] = _x & 0xFF;
buffer[2] = (_x >> 8) & 0xFF; buffer[3] = _y & 0xFF;
buffer[4] = (_y >> 8) & 0xFF; buffer[5] = _scroll;`. -/
def reportBuffer (s : State) : List Nat :=
  [s.buttons,
   s.x &&& 0xFF, (s.x >>> 8) &&& 0xFF,
   s.y &&& 0xFF, (s.y >>> 8) &&& 0xFF,
   int8ToByte s.scroll]

/-- `AbsMouse_::report` (AbsMouse.cpp lines 85-96): builds the 6-byte
buffer, hands it to `HID().SendReport(1, buffer, 6)` (returned as the
first component), then executes `_scroll = 0`. -/
def report (s : State) : List Nat × State :=
  (reportBuffer s, { s with scroll := 0 })

/-- The `if (_autoReport) { report(); }` tail shared by every mutator of
`AbsMouse_`; returns the list of buffers emitted (one or none) and the
resulting state. -/
def autoReportStep (s : State) : List (List Nat) × State :=
  if s.autoReport then ([(report s).1], (report s).2) else ([], s)

/-- `AbsMouse_::move` (AbsMouse.cpp lines 98-114):
`if (_width != 32767 || _height != 32767)` then
`_x = (uint16_t)((32767l * ((uint32_t)x)) / _width)` and likewise for
`_y` (the product never exceeds 32767 * 65535 so only the final
`uint16_t` cast truncates, embedded as `% 65536`), else `_x = x; _y = y`;
then the auto-report tail. -/
def move (x y : Nat) (s : State) : List (List Nat) × State :=
  let s1 :=
    if s.width ≠ 32767 ∨ s.height ≠ 32767 then
      { s with x := (32767 * x / s.width) % 65536
               y := (32767 * y / s.height) % 65536 }
    else
      { s with x := x, y := y }
  autoReportStep s1

/-- `AbsMouse_::scroll` (AbsMouse.cpp lines 116-123): `_scroll = wheel`
then the auto-report tail. -/
def scroll (wheel : Int) (s : State) : List (List Nat) × State :=
  autoReportStep { s with scroll := wheel }

/-- `AbsMouse_::press` (AbsMouse.cpp lines 125-133): `_buttons |= button`
then the auto-report tail. -/
def press (b : Nat) (s : State) : List (List Nat) × State :=
  autoReportStep { s with buttons := s.buttons ||| b }

/-- `AbsMouse_::release` (AbsMouse.cpp lines 135-143):
`_buttons &= ~button`; for `uint8_t` operands with `_buttons < 256` this
is `_buttons &&& (255 ^^^ button)`, the 8-bit complement mask. -/
def release (b : Nat) (s : State) : List (List Nat) × State :=
  autoReportStep { s with buttons := s.buttons &&& (255 ^^^ b) }

/-- Holds exactly when a call to `AbsMouse_::move` on state `s` executes
a division by zero: the rescaling branch is taken
(`_width != 32767 || _height != 32767`, AbsMouse.cpp line 100) and one of
the unguarded divisors `_width`, `_height` (lines 102-103) is zero. -/
def moveDividesByZero (s : State) : Prop :=
  (s.width ≠ 32767 ∨ s.height ≠ 32767) ∧ (s.width = 0 ∨ s.height = 0)

/-- Decoding of a report-buffer byte as the signed `int8_t` it carries. -/
def decodeInt8 (b : Nat) : Int :=
  if b < 128 then (b : Int) else (b : Int) - 256

/-- One adapter operation, for reasoning about arbitrary call sequences
on an `AbsMouse_` instance. -/
inductive Op where
  | opInit : Nat → Nat → Bool → Op
  | opMove : Nat → Nat → Op
  | opScroll : Int → Op
  | opPress : Nat → Op
  | opRelease : Nat → Op
  | opReport : Op
deriving Repr, DecidableEq

/-- The state reached after one adapter operation (emitted buffers
discarded). -/
def stepState (s : State) : Op → State
  | .opInit w h a => init w h a s
  | .opMove x y => (move x y s).2
  | .opScroll v => (scroll v s).2
  | .opPress b => (press b s).2
  | .opRelease b => (release b s).2
  | .opReport => (report s).2

/-- The state reached after a sequence of adapter operations. -/
def runOps (s : State) : List Op → State
  | [] => s
  | op :: rest => runOps (stepState s op) rest

/-- Well-formedness of one operation against the C argument types and the
claimed preconditions: `init` receives nonzero `uint16_t` dimensions,
`press`/`release` a `uint8_t`, `scroll` an `int8_t`, and a `move`'s
coordinates do not exceed the reference resolution current at the call. -/
def wfOp (s : State) : Op → Bool
  | .opInit w h _ =>
      decide (1 ≤ w) && decide (w ≤ 65535) && decide (1 ≤ h) && decide (h ≤ 65535)
  | .opMove x y => decide (x ≤ s.width) && decide (y ≤ s.height)
  | .opScroll v => decide (-128 ≤ v) && decide (v ≤ 127)
  | .opPress b => decide (b ≤ 255)
  | .opRelease b => decide (b ≤ 255)
  | .opReport => true

/-- Well-formedness of a whole operation trace starting from `s`. -/
def wfTrace (s : State) : List Op → Bool
  | [] => true
  | op :: rest => wfOp s op && wfTrace (stepState s op) rest

end AbsMouse

namespace FrameDecoder

/-- A validated frame as described in the spec's data model: the type
byte and the payload bytes (checksum already checked and removed). -/
structure Frame where
  type : Nat
  payload : List Nat
deriving Repr, DecidableEq

/-- XOR checksum of a list of data bytes. -/
def xorBytes (l : List Nat) : Nat := l.foldl (fun a b => a ^^^ b) 0

/-- Modelled from the spec: the decoder states `AwaitingStart`,
`AwaitingLength`, `AwaitingData` of §3/§4.1. The decoder's source file is
not among the provided sources; `awaitingData` carries the reused
in-flight buffer of accumulated data bytes and the count of bytes still
expected (declared length minus bytes consumed). -/
inductive DecoderState where
  | awaitingStart : DecoderState
  | awaitingLength : DecoderState
  | awaitingData : List Nat → Nat → DecoderState
deriving Repr, DecidableEq

/-- Modelled from the spec: the byte-at-a-time frame decoder of §4.1,
whose source file is not among the provided sources. In `awaitingStart`
a byte equal to `FRAME_START` advances, anything else is ignored; in
`awaitingLength` a declared length of zero or above `MAX_DATA_LENGTH`
discards the frame, otherwise `L` bytes are awaited; in `awaitingData`
the `L`-th byte is the checksum, compared against the XOR of all
preceding data bytes: a match emits the frame (type byte first, then the
payload), a mismatch discards it silently. -/
def decodeByte : DecoderState → Nat → DecoderState × Option Frame
  | .awaitingStart, b =>
      (if b = SerialSymbols.FRAME_START then .awaitingLength else .awaitingStart,
       none)
  | .awaitingLength, b =>
      (if b = 0 ∨ SerialSymbols.MAX_DATA_LENGTH < b then .awaitingStart
       else .awaitingData [] b,
       none)
  | .awaitingData buf rem, b =>
      if rem ≤ 1 then
        if xorBytes buf = b then
          (.awaitingStart, some { type := buf.headD 0, payload := buf.drop 1 })
        else
          (.awaitingStart, none)
      else
        (.awaitingData (buf ++ [b]) (rem - 1), none)

/-- Feeding a whole byte list through the decoder, collecting every
emitted frame in order. -/
def decodeAll : DecoderState → List Nat → DecoderState × List Frame
  | s, [] => (s, [])
  | s, b :: rest =>
      let p := decodeByte s b
      let q := decodeAll p.1 rest
      (q.1, p.2.toList ++ q.2)

/-- The on-wire encoding of a frame with data bytes `data` (type byte
followed by payload): start marker, declared length (data plus one
checksum byte), the data, the XOR checksum. -/
def encodeFrame (data : List Nat) : List Nat :=
  SerialSymbols.FRAME_START :: (data.length + 1) :: (data ++ [xorBytes data])

/-- Byte list `l` with bit `k` of byte `j` flipped. -/
def flipBit (l : List Nat) (j k : Nat) : List Nat :=
  l.set j (l.getD j 0 ^^^ (1 <<< k))

end FrameDecoder

namespace AbsMouse

lemma report_snd (s : State) : (report s).2 = { s with scroll := 0 } := rfl

lemma autoReportStep_snd (s : State) :
    (autoReportStep s).2 = { s with scroll := if s.autoReport then 0 else s.scroll } := by
  obtain ⟨bu, sc, xx, yy, ww, hh, ar⟩ := s
  cases ar <;> simp [autoReportStep, report]

lemma move_snd (x y : Nat) (s : State) :
    (move x y s).2 =
      { s with
        x := if s.width ≠ 32767 ∨ s.height ≠ 32767 then (32767 * x / s.width) % 65536 else x
        y := if s.width ≠ 32767 ∨ s.height ≠ 32767 then (32767 * y / s.height) % 65536 else y
        scroll := if s.autoReport then 0 else s.scroll } := by
  by_cases h : s.width ≠ 32767 ∨ s.height ≠ 32767 <;>
    by_cases ha : s.autoReport = true <;>
      simp [move, autoReportStep, report, h, ha]

lemma scroll_snd (v : Int) (s : State) :
    (scroll v s).2 = { s with scroll := if s.autoReport then 0 else v } := by
  by_cases ha : s.autoReport = true <;> simp [scroll, autoReportStep, report, ha]

lemma press_snd (b : Nat) (s : State) :
    (press b s).2 =
      { s with buttons := s.buttons ||| b
               scroll := if s.autoReport then 0 else s.scroll } := by
  by_cases ha : s.autoReport = true <;> simp [press, autoReportStep, report, ha]

lemma release_snd (b : Nat) (s : State) :
    (release b s).2 =
      { s with buttons := s.buttons &&& (255 ^^^ b)
               scroll := if s.autoReport then 0 else s.scroll } := by
  by_cases ha : s.autoReport = true <;> simp [release, autoReportStep, report, ha]

lemma rescale_le (x w : Nat) (h : x ≤ w) : 32767 * x / w ≤ 32767 := by
  rcases Nat.eq_zero_or_pos w with hw | hw
  · subst hw
    have hx : x = 0 := Nat.le_zero.mp h
    simp [hx]
  · calc 32767 * x / w ≤ 32767 * w / w :=
          Nat.div_le_div_right (Nat.mul_le_mul_left _ h)
    _ = 32767 := by
          rw [Nat.mul_comm]
          exact Nat.mul_div_cancel_left 32767 hw

lemma low_high_bytes (x : Nat) (h : x < 65536) :
    (x &&& 255) + 256 * ((x >>> 8) &&& 255) = x := by
  have e1 : x &&& 255 = x % 256 := by
    simpa using Nat.and_pow_two_sub_one_eq_mod x 8
  have e2 : x >>> 8 = x / 256 := by
    simpa using Nat.shiftRight_eq_div_pow x 8
  have e3 : x / 256 &&& 255 = x / 256 % 256 := by
    simpa using Nat.and_pow_two_sub_one_eq_mod (x / 256) 8
  rw [e1, e2, e3]
  omega

lemma decodeInt8_int8ToByte (v : Int) (h1 : -128 ≤ v) (h2 : v ≤ 127) :
    decodeInt8 (int8ToByte v) = v := by
  unfold decodeInt8 int8ToByte
  split <;> omega

lemma stepState_x_le (s : State) (op : Op) (hx : s.x ≤ 32767)
    (hwf : wfOp s op = true) : (stepState s op).x ≤ 32767 := by
  cases op with
  | opInit w h a => simpa [stepState, init] using hx
  | opMove x0 y0 =>
    have hx0 : x0 ≤ s.width := by
      simp only [wfOp, Bool.and_eq_true, decide_eq_true_eq] at hwf
      exact hwf.1
    simp only [stepState, move_snd]
    by_cases h : s.width ≠ 32767 ∨ s.height ≠ 32767
    · simp only [h, if_pos]
      exact le_trans (Nat.mod_le _ _) (rescale_le x0 s.width hx0)
    · simp only [h, if_neg, ite_false]
      have hw : s.width = 32767 := by tauto
      omega
  | opScroll v => simpa [stepState, scroll_snd] using hx
  | opPress b => simpa [stepState, press_snd] using hx
  | opRelease b => simpa [stepState, release_snd] using hx
  | opReport => simpa [stepState, report_snd] using hx

lemma stepState_y_le (s : State) (op : Op) (hy : s.y ≤ 32767)
    (hwf : wfOp s op = true) : (stepState s op).y ≤ 32767 := by
  cases op with
  | opInit w h a => simpa [stepState, init] using hy
  | opMove x0 y0 =>
    have hy0 : y0 ≤ s.height := by
      simp only [wfOp, Bool.and_eq_true, decide_eq_true_eq] at hwf
      exact hwf.2
    simp only [stepState, move_snd]
    by_cases h : s.width ≠ 32767 ∨ s.height ≠ 32767
    · simp only [h, if_pos]
      exact le_trans (Nat.mod_le _ _) (rescale_le y0 s.height hy0)
    · simp only [h, if_neg, ite_false]
      have hh : s.height = 32767 := by tauto
      omega
  | opScroll v => simpa [stepState, scroll_snd] using hy
  | opPress b => simpa [stepState, press_snd] using hy
  | opRelease b => simpa [stepState, release_snd] using hy
  | opReport => simpa [stepState, report_snd] using hy

lemma runOps_coord_le (ops : List Op) : ∀ s : State, s.x ≤ 32767 → s.y ≤ 32767 →
    wfTrace s ops = true → (runOps s ops).x ≤ 32767 ∧ (runOps s ops).y ≤ 32767 := by
  induction ops with
  | nil => intro s hx hy _; exact ⟨hx, hy⟩
  | cons op rest ih =>
    intro s hx hy hwf
    rw [wfTrace, Bool.and_eq_true] at hwf
    rw [runOps]
    exact ih (stepState s op)
      (stepState_x_le s op hx hwf.1) (stepState_y_le s op hy hwf.1) hwf.2

end AbsMouse

namespace FrameDecoder

lemma foldl_xor_eq (l : List Nat) : ∀ a : Nat,
    l.foldl (fun x b => x ^^^ b) a = a ^^^ xorBytes l := by
  induction l with
  | nil => intro a; simp [xorBytes]
  | cons b t ih =>
    intro a
    have h1 := ih (a ^^^ b)
    have h2 := ih (0 ^^^ b)
    simp only [xorBytes, List.foldl_cons]
    rw [h1]
    conv_rhs => rw [h2]
    rw [Nat.zero_xor, Nat.xor_assoc]

lemma xorBytes_cons (b : Nat) (l : List Nat) :
    xorBytes (b :: l) = b ^^^ xorBytes l := by
  have h : xorBytes (b :: l) = l.foldl (fun x c => x ^^^ c) (0 ^^^ b) := rfl
  rw [h, foldl_xor_eq, Nat.zero_xor]

lemma xorBytes_set (m : Nat) : ∀ (l : List Nat) (j : Nat), j < l.length →
    xorBytes (l.set j (l.getD j 0 ^^^ m)) = xorBytes l ^^^ m := by
  intro l
  induction l with
  | nil => intro j hj; simp at hj
  | cons b t ih =>
    intro j hj
    cases j with
    | zero =>
      simp only [List.set_cons_zero, List.getD_cons_zero]
      rw [xorBytes_cons, xorBytes_cons, Nat.xor_assoc,
        Nat.xor_comm m (xorBytes t), ← Nat.xor_assoc]
    | succ n =>
      have hn : n < t.length := by simpa using hj
      simp only [List.set_cons_succ, List.getD_cons_succ]
      rw [xorBytes_cons, xorBytes_cons, ih n hn, Nat.xor_assoc]

lemma decodeAll_cons_none (s s1 : DecoderState) (b : Nat) (rest : List Nat)
    (h : decodeByte s b = (s1, none)) :
    decodeAll s (b :: rest) = decodeAll s1 rest := by
  simp [decodeAll, h]

lemma decodeAll_data_feed : ∀ (l buf rest : List Nat),
    decodeAll (DecoderState.awaitingData buf (l.length + 1)) (l ++ rest)
      = decodeAll (DecoderState.awaitingData (buf ++ l) 1) rest := by
  intro l
  induction l with
  | nil => intro buf rest; simp
  | cons b t ih =>
    intro buf rest
    have h2 : ¬ (t.length + 1 + 1 ≤ 1) := by omega
    have hstep : decodeByte (DecoderState.awaitingData buf (t.length + 1 + 1)) b
        = (DecoderState.awaitingData (buf ++ [b]) (t.length + 1), none) := by
      simp [decodeByte, h2]
    show decodeAll (DecoderState.awaitingData buf (t.length + 1 + 1))
        (b :: (t ++ rest)) = _
    rw [decodeAll_cons_none _ _ _ _ hstep, ih (buf ++ [b]) rest,
      ← List.append_cons]

lemma decodeAll_checksum_ok (buf : List Nat) (c : Nat) (h : xorBytes buf = c) :
    decodeAll (DecoderState.awaitingData buf 1) [c]
      = (DecoderState.awaitingStart,
         [{ type := buf.headD 0, payload := buf.drop 1 }]) := by
  simp [decodeAll, decodeByte, h]

lemma decodeAll_checksum_bad (buf : List Nat) (c : Nat) (h : xorBytes buf ≠ c) :
    decodeAll (DecoderState.awaitingData buf 1) [c]
      = (DecoderState.awaitingStart, []) := by
  simp [decodeAll, decodeByte, h]

lemma decodeByte_start_ok :
    decodeByte DecoderState.awaitingStart SerialSymbols.FRAME_START
      = (DecoderState.awaitingLength, none) := by
  simp [decodeByte]

lemma decodeByte_length_ok (L : Nat) (h1 : 1 ≤ L)
    (h2 : L ≤ SerialSymbols.MAX_DATA_LENGTH) :
    decodeByte DecoderState.awaitingLength L
      = (DecoderState.awaitingData [] L, none) := by
  have hM : SerialSymbols.MAX_DATA_LENGTH = 6 := rfl
  have hno : ¬ (L = 0 ∨ SerialSymbols.MAX_DATA_LENGTH < L) := by
    rw [hM] at h2 ⊢
    omega
  simp [decodeByte, hno]

lemma decodeAll_encodeFrame (data : List Nat) (hlen : 1 ≤ data.length)
    (hmax : data.length + 1 ≤ SerialSymbols.MAX_DATA_LENGTH) :
    decodeAll DecoderState.awaitingStart (encodeFrame data)
      = (DecoderState.awaitingStart,
         [{ type := data.headD 0, payload := data.drop 1 }]) := by
  unfold encodeFrame
  rw [decodeAll_cons_none _ _ _ _ decodeByte_start_ok,
    decodeAll_cons_none _ _ _ _ (decodeByte_length_ok (data.length + 1) (by omega) hmax)]
  have hfeed := decodeAll_data_feed data [] [xorBytes data]
  rw [List.nil_append] at hfeed
  rw [hfeed]
  exact decodeAll_checksum_ok data (xorBytes data) rfl

lemma flipBit_length (l : List Nat) (j k : Nat) :
    (flipBit l j k).length = l.length := by
  simp [flipBit]

lemma xorBytes_flipBit_ne (l : List Nat) (j k : Nat) (hj : j < l.length) :
    xorBytes (flipBit l j k) ≠ xorBytes l := by
  unfold flipBit
  rw [xorBytes_set (1 <<< k) l j hj]
  intro hEq
  have h0 : (1 <<< k) = 0 := by
    have hc := congrArg (fun z => xorBytes l ^^^ z) hEq
    simpa [Nat.xor_cancel_left, Nat.xor_self] using hc
  have hp : 0 < 1 <<< k := by
    rw [Nat.one_shiftLeft]
    exact pow_pos (by norm_num) k
  omega

lemma decodeAll_corrupted (data : List Nat) (j k : Nat)
    (hlen : 1 ≤ data.length)
    (hmax : data.length + 1 ≤ SerialSymbols.MAX_DATA_LENGTH)
    (hj : j < data.length) :
    decodeAll DecoderState.awaitingStart
        (SerialSymbols.FRAME_START :: (data.length + 1) ::
          (flipBit data j k ++ [xorBytes data]))
      = (DecoderState.awaitingStart, []) := by
  have hlenflip : data.length + 1 = (flipBit data j k).length + 1 := by
    rw [flipBit_length]
  rw [decodeAll_cons_none _ _ _ _ decodeByte_start_ok,
    decodeAll_cons_none _ _ _ _ (decodeByte_length_ok (data.length + 1) (by omega) hmax)]
  have hfeed := decodeAll_data_feed (flipBit data j k) [] [xorBytes data]
  rw [List.nil_append] at hfeed
  rw [hlenflip, hfeed]
  exact decodeAll_checksum_bad _ _ (xorBytes_flipBit_ne data j k hj)

end FrameDecoder

/-- C1 (amended): for every call to `move(x, y)`, if the configured
reference resolution is not 32767x32767, the stored coordinates become
`floor(32767 * x / width)` and `floor(32767 * y / height)` reduced
modulo 65536 by the `uint16_t` cast (for in-range inputs the quotient is
at most 32767, so the reduction is the identity there); if the reference
equals the native range, `x` and `y` are stored unchanged; with
reference resolution 1920x1080 and input `(960, 540)` the stored
coordinates equal `(16383, 16383)`. -/
theorem c1_move_rescaling (s : AbsMouse.State) (x y : Nat) :
    (¬ (s.width = 32767 ∧ s.height = 32767) →
      ((AbsMouse.move x y s).2.x = (32767 * x / s.width) % 65536 ∧
       (AbsMouse.move x y s).2.y = (32767 * y / s.height) % 65536)) ∧
    (s.width = 32767 → s.height = 32767 →
      ((AbsMouse.move x y s).2.x = x ∧ (AbsMouse.move x y s).2.y = y)) ∧
    (s.width = 1920 → s.height = 1080 →
      ((AbsMouse.move 960 540 s).2.x = 16383 ∧
       (AbsMouse.move 960 540 s).2.y = 16383)) := by
  refine ⟨?_, ?_, ?_⟩
  · intro h
    rw [not_and_or] at h
    simp [AbsMouse.move_snd, h]
  · intro hw hh
    simp [AbsMouse.move_snd, hw, hh]
  · intro hw hh
    have h : s.width ≠ 32767 ∨ s.height ≠ 32767 := by omega
    simp [AbsMouse.move_snd, h, hw, hh]

/-- Witness for C1: on the default-constructed state (reference
1920x1080), `move(960, 540)` stores `(16383, 16383)`. -/
theorem c1_move_rescaling_witness :
    (AbsMouse.move 960 540 AbsMouse.initialState).2.x = 16383 ∧
    (AbsMouse.move 960 540 AbsMouse.initialState).2.y = 16383 :=
  (c1_move_rescaling AbsMouse.initialState 960 540).2.2 rfl rfl

/-- Counterexample to C1 as stated: with reference resolution 1x1 the
input `(3, 3)` is stored as 32765, not as the exact floor quotient
`32767 * 3 / 1 = 98301`, because the `uint16_t` cast truncates. -/
theorem c1_move_rescaling_cex :
    (AbsMouse.move 3 3
      { buttons := 0, scroll := 0, x := 0, y := 0
        width := 1, height := 1, autoReport := false }).2.x = 32765 ∧
    32767 * 3 / 1 = 98301 ∧ (32765 : Nat) ≠ 98301 := by
  decide

/-- C2 (amended): starting from the default-constructed adapter, for
every sequence of adapter operations that is well formed - `init`
dimensions are nonzero `uint16_t` values and every `move(x, y)` satisfies
`x <= width` and `y <= height` for the reference resolution current at
that call - the stored coordinates always remain in `0..32767`. Without
the restriction on `move` inputs the invariant fails. -/
theorem c2_coords_bounded (ops : List AbsMouse.Op)
    (h : AbsMouse.wfTrace AbsMouse.initialState ops = true) :
    (AbsMouse.runOps AbsMouse.initialState ops).x ≤ 32767 ∧
    (AbsMouse.runOps AbsMouse.initialState ops).y ≤ 32767 :=
  AbsMouse.runOps_coord_le ops AbsMouse.initialState (by decide) (by decide) h

/-- Witness for C2: a concrete well-formed trace with an `init`, a
`move`, a `press` and a `report` keeps the coordinates in range. -/
theorem c2_coords_bounded_witness :
    (AbsMouse.runOps AbsMouse.initialState
      [AbsMouse.Op.opInit 1000 800 false, AbsMouse.Op.opMove 999 500,
       AbsMouse.Op.opPress 1, AbsMouse.Op.opReport]).x ≤ 32767 ∧
    (AbsMouse.runOps AbsMouse.initialState
      [AbsMouse.Op.opInit 1000 800 false, AbsMouse.Op.opMove 999 500,
       AbsMouse.Op.opPress 1, AbsMouse.Op.opReport]).y ≤ 32767 :=
  c2_coords_bounded
    [AbsMouse.Op.opInit 1000 800 false, AbsMouse.Op.opMove 999 500,
     AbsMouse.Op.opPress 1, AbsMouse.Op.opReport] (by decide)

/-- Counterexample to C2 as stated: with reference resolution 1x1 (both
at least 1) the call `move(2, 2)` stores `_x = 65534`, outside
`0..32767`. -/
theorem c2_coords_bounded_cex :
    (AbsMouse.runOps AbsMouse.initialState
      [AbsMouse.Op.opInit 1 1 false, AbsMouse.Op.opMove 2 2]).x = 65534 ∧
    ¬ ((AbsMouse.runOps AbsMouse.initialState
      [AbsMouse.Op.opInit 1 1 false, AbsMouse.Op.opMove 2 2]).x ≤ 32767) := by
  decide

/-- C3: `report()` leaves `_buttons`, `_x`, `_y`, `_width`, `_height` and
`_autoReport` unchanged and sets `_scroll` to 0; consequently after
`scroll(5)` followed by one report emission (the automatic one when
`_autoReport` is set, a manual one otherwise), a subsequent report with no
intervening scroll command carries scroll byte 0. -/
theorem c3_report_effect (s : AbsMouse.State) :
    ((AbsMouse.report s).2.buttons = s.buttons ∧
     (AbsMouse.report s).2.x = s.x ∧
     (AbsMouse.report s).2.y = s.y ∧
     (AbsMouse.report s).2.width = s.width ∧
     (AbsMouse.report s).2.height = s.height ∧
     (AbsMouse.report s).2.autoReport = s.autoReport ∧
     (AbsMouse.report s).2.scroll = 0) ∧
    (AbsMouse.report
        (if s.autoReport then (AbsMouse.scroll 5 s).2
         else (AbsMouse.report (AbsMouse.scroll 5 s).2).2)).1.getD 5 1 = 0 := by
  constructor
  · exact ⟨rfl, rfl, rfl, rfl, rfl, rfl, rfl⟩
  · by_cases h : s.autoReport = true <;>
      simp [AbsMouse.scroll_snd, AbsMouse.report, AbsMouse.reportBuffer,
        AbsMouse.int8ToByte, h, List.getD]

/-- C4: for every state (with `uint16_t` coordinates and an `int8_t`
scroll), `report()` hands the transport one 6-byte buffer holding the
button mask in byte 0, `_x` little-endian in bytes 1-2, `_y`
little-endian in bytes 3-4 and the signed scroll delta in byte 5. -/
theorem c4_report_buffer_layout (s : AbsMouse.State)
    (hx : s.x < 65536) (hy : s.y < 65536)
    (h1 : -128 ≤ s.scroll) (h2 : s.scroll ≤ 127) :
    (AbsMouse.report s).1.length = 6 ∧
    (AbsMouse.report s).1.getD 0 9 = s.buttons ∧
    (AbsMouse.report s).1.getD 1 9 + 256 * (AbsMouse.report s).1.getD 2 9 = s.x ∧
    (AbsMouse.report s).1.getD 3 9 + 256 * (AbsMouse.report s).1.getD 4 9 = s.y ∧
    AbsMouse.decodeInt8 ((AbsMouse.report s).1.getD 5 9) = s.scroll := by
  refine ⟨rfl, rfl, ?_, ?_, ?_⟩
  · show (s.x &&& 0xFF) + 256 * ((s.x >>> 8) &&& 0xFF) = s.x
    exact AbsMouse.low_high_bytes s.x hx
  · show (s.y &&& 0xFF) + 256 * ((s.y >>> 8) &&& 0xFF) = s.y
    exact AbsMouse.low_high_bytes s.y hy
  · show AbsMouse.decodeInt8 (AbsMouse.int8ToByte s.scroll) = s.scroll
    exact AbsMouse.decodeInt8_int8ToByte s.scroll h1 h2

/-- Witness for C4: the layout on a concrete state with buttons 5,
coordinates (777, 65535) and scroll -3. -/
theorem c4_report_buffer_layout_witness :
    (AbsMouse.report
      { buttons := 5, scroll := -3, x := 777, y := 65535
        width := 1920, height := 1080, autoReport := false }).1.length = 6 ∧
    (AbsMouse.report
      { buttons := 5, scroll := -3, x := 777, y := 65535
        width := 1920, height := 1080, autoReport := false }).1.getD 0 9 = 5 ∧
    (AbsMouse.report
      { buttons := 5, scroll := -3, x := 777, y := 65535
        width := 1920, height := 1080, autoReport := false }).1.getD 1 9 +
      256 * (AbsMouse.report
      { buttons := 5, scroll := -3, x := 777, y := 65535
        width := 1920, height := 1080, autoReport := false }).1.getD 2 9 = 777 ∧
    (AbsMouse.report
      { buttons := 5, scroll := -3, x := 777, y := 65535
        width := 1920, height := 1080, autoReport := false }).1.getD 3 9 +
      256 * (AbsMouse.report
      { buttons := 5, scroll := -3, x := 777, y := 65535
        width := 1920, height := 1080, autoReport := false }).1.getD 4 9 = 65535 ∧
    AbsMouse.decodeInt8 ((AbsMouse.report
      { buttons := 5, scroll := -3, x := 777, y := 65535
        width := 1920, height := 1080, autoReport := false }).1.getD 5 9) = -3 :=
  c4_report_buffer_layout
    { buttons := 5, scroll := -3, x := 777, y := 65535
      width := 1920, height := 1080, autoReport := false }
    (by decide) (by decide) (by decide) (by decide)

/-- C5 (amended): `press(b)` sets the button state to `buttons OR b` and
`release(b)` to `buttons AND NOT b`; each is idempotent on the stored
state; neither modifies `_x`, `_y`, `_width` or `_height`; `_scroll` is
unmodified when `_autoReport` is false, but when `_autoReport` is true
the automatically triggered report resets `_scroll` to 0. -/
theorem c5_press_release (s : AbsMouse.State) (b : Nat) :
    ((AbsMouse.press b s).2.buttons = s.buttons ||| b) ∧
    ((AbsMouse.release b s).2.buttons = s.buttons &&& (255 ^^^ b)) ∧
    ((AbsMouse.press b (AbsMouse.press b s).2).2 = (AbsMouse.press b s).2) ∧
    ((AbsMouse.release b (AbsMouse.release b s).2).2 = (AbsMouse.release b s).2) ∧
    ((AbsMouse.press b s).2.x = s.x ∧ (AbsMouse.press b s).2.y = s.y ∧
     (AbsMouse.press b s).2.width = s.width ∧
     (AbsMouse.press b s).2.height = s.height) ∧
    ((AbsMouse.release b s).2.x = s.x ∧ (AbsMouse.release b s).2.y = s.y ∧
     (AbsMouse.release b s).2.width = s.width ∧
     (AbsMouse.release b s).2.height = s.height) ∧
    (s.autoReport = false →
      ((AbsMouse.press b s).2.scroll = s.scroll ∧
       (AbsMouse.release b s).2.scroll = s.scroll)) ∧
    (s.autoReport = true →
      ((AbsMouse.press b s).2.scroll = 0 ∧
       (AbsMouse.release b s).2.scroll = 0)) := by
  by_cases h : s.autoReport = true <;>
    simp [AbsMouse.press_snd, AbsMouse.release_snd, h,
      Nat.or_assoc, Nat.or_self, Nat.and_assoc, Nat.and_self]

/-- Witness for C5: on the default-constructed state (`_autoReport`
false), `press(3)` and `release(3)` leave `_scroll` unchanged. -/
theorem c5_press_release_witness :
    (AbsMouse.press 3 AbsMouse.initialState).2.scroll
        = AbsMouse.initialState.scroll ∧
    (AbsMouse.release 3 AbsMouse.initialState).2.scroll
        = AbsMouse.initialState.scroll :=
  (c5_press_release AbsMouse.initialState 3).2.2.2.2.2.2.1 rfl

/-- Counterexample to C5 as stated: on a state with `_scroll = 5` and
`_autoReport = true`, `press(1)` changes `_scroll` to 0 (the triggered
report resets it), so press does modify the stored scroll. -/
theorem c5_press_release_cex :
    ({ buttons := 0, scroll := 5, x := 0, y := 0
       width := 1920, height := 1080, autoReport := true } : AbsMouse.State).scroll = 5 ∧
    (AbsMouse.press 1
      { buttons := 0, scroll := 5, x := 0, y := 0
        width := 1920, height := 1080, autoReport := true }).2.scroll = 0 := by
  decide

/-- C6: the frame type codes are exactly 0xA0 (relative mouse move),
0xAA (absolute mouse move), 0xAB (mouse scroll), 0xAC (mouse press),
0xAD (mouse release), 0xAE (set resolution), 0xBB (key press),
0xBC (key release), and the scroll type code equals the frame start
marker 0xAB. -/
theorem c6_frame_type_codes :
    SerialSymbols.FRAME_TYPE_REL_MOUSE_MOVE = 0xA0 ∧
    SerialSymbols.FRAME_TYPE_MOUSE_MOVE = 0xAA ∧
    SerialSymbols.FRAME_TYPE_MOUSE_SCROLL = 0xAB ∧
    SerialSymbols.FRAME_TYPE_MOUSE_PRESS = 0xAC ∧
    SerialSymbols.FRAME_TYPE_MOUSE_RELEASE = 0xAD ∧
    SerialSymbols.FRAME_TYPE_MOUSE_RESOLUTION = 0xAE ∧
    SerialSymbols.FRAME_TYPE_KEY_PRESS = 0xBB ∧
    SerialSymbols.FRAME_TYPE_KEY_RELEASE = 0xBC ∧
    SerialSymbols.FRAME_TYPE_MOUSE_SCROLL = SerialSymbols.FRAME_START := by
  decide

/-- C7: the maximum declared data length is 6 and the maximum total
on-wire frame length (start marker and length byte included) is 8; a
declared length of zero or above 6 makes the decoder discard the frame
and return to `awaitingStart`, while lengths 1..6 are accepted. -/
theorem c7_length_bounds :
    SerialSymbols.MAX_DATA_LENGTH = 6 ∧
    SerialSymbols.MAX_FRAME_LENGTH = 8 ∧
    (∀ L : Nat, L = 0 ∨ SerialSymbols.MAX_DATA_LENGTH < L →
      FrameDecoder.decodeByte FrameDecoder.DecoderState.awaitingLength L
        = (FrameDecoder.DecoderState.awaitingStart, none)) ∧
    (∀ L : Nat, 1 ≤ L → L ≤ SerialSymbols.MAX_DATA_LENGTH →
      FrameDecoder.decodeByte FrameDecoder.DecoderState.awaitingLength L
        = (FrameDecoder.DecoderState.awaitingData [] L, none)) := by
  refine ⟨rfl, rfl, ?_, ?_⟩
  · intro L h
    simp [FrameDecoder.decodeByte, h]
  · intro L h1 h2
    exact FrameDecoder.decodeByte_length_ok L h1 h2

/-- Witness for C7: declared lengths 7 and 0 are discarded, declared
length 4 is accepted. -/
theorem c7_length_bounds_witness :
    FrameDecoder.decodeByte FrameDecoder.DecoderState.awaitingLength 7
      = (FrameDecoder.DecoderState.awaitingStart, none) ∧
    FrameDecoder.decodeByte FrameDecoder.DecoderState.awaitingLength 0
      = (FrameDecoder.DecoderState.awaitingStart, none) ∧
    FrameDecoder.decodeByte FrameDecoder.DecoderState.awaitingLength 4
      = (FrameDecoder.DecoderState.awaitingData [] 4, none) :=
  ⟨c7_length_bounds.2.2.1 7 (by decide),
   c7_length_bounds.2.2.1 0 (by decide),
   c7_length_bounds.2.2.2 4 (by decide) (by decide)⟩

/-- C8: the frame checksum is the XOR of all data bytes between the
length byte and the checksum byte (type byte included, checksum
excluded); a well-formed frame decodes to exactly its one frame, and
flipping any single bit of any data byte (type or payload, not the
checksum) makes the checksum comparison fail, so the corrupted frame is
dropped and the decoder emits no frame at all (zero HID side effects). -/
theorem c8_checksum_flip (typeB : Nat) (payload : List Nat) (j k : Nat)
    (_hbytes : ∀ b ∈ typeB :: payload, b < 256)
    (hplen : payload.length ≤ 4)
    (hj : j < (typeB :: payload).length) (_hk : k < 8) :
    FrameDecoder.decodeAll FrameDecoder.DecoderState.awaitingStart
        (FrameDecoder.encodeFrame (typeB :: payload))
      = (FrameDecoder.DecoderState.awaitingStart,
         [{ type := typeB, payload := payload }]) ∧
    FrameDecoder.decodeAll FrameDecoder.DecoderState.awaitingStart
        (SerialSymbols.FRAME_START :: ((typeB :: payload).length + 1) ::
          (FrameDecoder.flipBit (typeB :: payload) j k ++
            [FrameDecoder.xorBytes (typeB :: payload)]))
      = (FrameDecoder.DecoderState.awaitingStart, []) := by
  have hmax : (typeB :: payload).length + 1 ≤ SerialSymbols.MAX_DATA_LENGTH := by
    have hM : SerialSymbols.MAX_DATA_LENGTH = 6 := rfl
    rw [hM, List.length_cons]
    omega
  constructor
  · have h := FrameDecoder.decodeAll_encodeFrame (typeB :: payload) (by simp) hmax
    simpa using h
  · exact FrameDecoder.decodeAll_corrupted (typeB :: payload) j k (by simp) hmax hj

/-- Witness for C8: the frame with type 0xAC and payload [1] decodes to
itself, and the same frame with bit 0 of its payload byte flipped is
dropped. -/
theorem c8_checksum_flip_witness :
    FrameDecoder.decodeAll FrameDecoder.DecoderState.awaitingStart
        (FrameDecoder.encodeFrame [0xAC, 1])
      = (FrameDecoder.DecoderState.awaitingStart,
         [{ type := 0xAC, payload := [1] }]) ∧
    FrameDecoder.decodeAll FrameDecoder.DecoderState.awaitingStart
        (SerialSymbols.FRAME_START :: (([0xAC, 1] : List Nat).length + 1) ::
          (FrameDecoder.flipBit [0xAC, 1] 1 0 ++
            [FrameDecoder.xorBytes [0xAC, 1]]))
      = (FrameDecoder.DecoderState.awaitingStart, []) :=
  c8_checksum_flip 0xAC [1] 1 0 (by decide) (by decide) (by decide) (by decide)

/-- C9: the default-constructed `AbsMouse_` has buttons 0, scroll 0,
coordinates (0, 0), reference resolution 1920x1080 and auto-report off,
so `move` rescales against 1920x1080 and mutators emit no automatic
report; the default arguments declared for `init` differ
(32767, 32767, true) and take effect only once `init` is invoked. -/
theorem c9_constructor_defaults :
    AbsMouse.initialState.buttons = 0 ∧
    AbsMouse.initialState.scroll = 0 ∧
    AbsMouse.initialState.x = 0 ∧
    AbsMouse.initialState.y = 0 ∧
    AbsMouse.initialState.width = 1920 ∧
    AbsMouse.initialState.height = 1080 ∧
    AbsMouse.initialState.autoReport = false ∧
    AbsMouse.INIT_DEFAULT_WIDTH = 32767 ∧
    AbsMouse.INIT_DEFAULT_HEIGHT = 32767 ∧
    AbsMouse.INIT_DEFAULT_AUTOREPORT = true ∧
    ¬ (AbsMouse.initialState.width = 32767 ∧ AbsMouse.initialState.height = 32767) ∧
    (AbsMouse.move 960 540 AbsMouse.initialState).2.x = 16383 ∧
    (AbsMouse.move 960 540 AbsMouse.initialState).2.y = 16383 ∧
    (AbsMouse.move 960 540 AbsMouse.initialState).1 = [] ∧
    (AbsMouse.scroll 5 AbsMouse.initialState).1 = [] ∧
    (AbsMouse.press 1 AbsMouse.initialState).1 = [] ∧
    (AbsMouse.release 1 AbsMouse.initialState).1 = [] ∧
    (AbsMouse.init AbsMouse.INIT_DEFAULT_WIDTH AbsMouse.INIT_DEFAULT_HEIGHT
        AbsMouse.INIT_DEFAULT_AUTOREPORT AbsMouse.initialState).width = 32767 ∧
    (AbsMouse.init AbsMouse.INIT_DEFAULT_WIDTH AbsMouse.INIT_DEFAULT_HEIGHT
        AbsMouse.INIT_DEFAULT_AUTOREPORT AbsMouse.initialState).height = 32767 ∧
    (AbsMouse.init AbsMouse.INIT_DEFAULT_WIDTH AbsMouse.INIT_DEFAULT_HEIGHT
        AbsMouse.INIT_DEFAULT_AUTOREPORT AbsMouse.initialState).autoReport = true := by
  decide

/-- C10: `move` divides by `_width` and `_height` without a guard
whenever the reference resolution is not 32767x32767; the
division-by-zero branch is unreachable exactly when `_width >= 1` and
`_height >= 1`, and `init` accepts zero dimensions without any guard, so
that precondition is required for `move` to be safe. -/
theorem c10_move_division_guard (s : AbsMouse.State) :
    (¬ AbsMouse.moveDividesByZero s ↔ (1 ≤ s.width ∧ 1 ≤ s.height)) ∧
    (∀ w h : Nat, ∀ a : Bool,
      (AbsMouse.init w h a s).width = w ∧ (AbsMouse.init w h a s).height = h) ∧
    (AbsMouse.init 0 0 false s).width = 0 ∧
    (AbsMouse.init 0 0 false s).height = 0 := by
  refine ⟨?_, fun w h a => ⟨rfl, rfl⟩, rfl, rfl⟩
  simp only [AbsMouse.moveDividesByZero]
  omega

/-- Witness for C10: the default-constructed state has nonzero reference
dimensions, so `move` on it executes no division by zero. -/
theorem c10_move_division_guard_witness :
    ¬ AbsMouse.moveDividesByZero AbsMouse.initialState :=
  (c10_move_division_guard AbsMouse.initialState).1.mpr (by decide)
